import Mathlib

/-!
Verification of the batch/block addressing core of `csrc/flash_attn/src/block_info.h`
(`flash::BlockInfo`): sequence-length resolution from cumulative-offset arrays and
block-table-indirected (paged) key/value cache addressing.

Modelling conventions:
- C `int` / `index_t` values are modelled as `Int`; the one explicit representation
  cast in the source (`uint32_t(sum_s_q)` in `q_offset` / `k_offset`) is modelled as
  `uint32cast`, i.e. reduction mod 2^32.
- A pointer to an `int` array is modelled as `Option (Int → Int)`: `none` is the
  null pointer, `some a` is a pointer whose pointee at index `i` is `a i`. The
  source never dereferences a pointer it has tested to be null (short-circuit
  evaluation), and the embedding mirrors those tests with `match`, so `none` is
  never "read".
- `knew_ptr` is only ever tested against null in this core, never dereferenced.
-/

namespace flash

/-- The fields of the kernel parameter struct that `BlockInfo` reads
(`params.cu_seqlens_q`, `params.cu_seqlens_k`, `params.is_seqlens_k_cumulative`,
`params.seqlen_q`, `params.seqlen_k`, `params.knew_ptr`, `params.seqlen_knew`,
`params.pg_attn_block_tables_ptr`, `params.pg_attn_block_tables_batch_stride`,
`params.pg_attn_cache_block_stride`), plus the `actual_batch_size` pointer that
the spec lists as part of the configuration. -/
structure Params where
  cu_seqlens_q : Option (Int → Int)
  cu_seqlens_k : Option (Int → Int)
  is_seqlens_k_cumulative : Bool
  seqlen_q : Int
  seqlen_k : Int
  knew_ptr : Option (Int → Int)
  seqlen_knew : Int
  pg_attn_block_tables_ptr : Option (Int → Int)
  pg_attn_block_tables_batch_stride : Int
  pg_attn_cache_block_stride : Int
  actual_batch_size : Option (Int → Int)

/-- The member fields of `flash::BlockInfo`. -/
structure BlockInfo where
  sum_s_q : Int
  sum_s_k : Int
  actual_seqlen_q : Int
  seqlen_k_cache : Int
  actual_seqlen_k : Int
  pg_attn_block_tables_ptr : Option (Int → Int)
  pg_attn_block_batch_stride : Int
  pg_attn_cache_block_stride : Int
  actual_batch_size : Option (Int → Int)

/-- The `BlockInfo` constructor, translated member by member from its initializer
list. `Varlen` is the template parameter. The source constructor leaves the
`actual_batch_size` member uninitialized (it is absent from the initializer
list); the embedding fixes one arbitrary value (`none`) for it, which in
particular records that the constructed value does not depend on
`params.actual_batch_size`. -/
def mkBlockInfo (Varlen : Bool) (params : Params) (bidb : Int) : BlockInfo :=
  let sum_s_q : Int :=
    match Varlen, params.cu_seqlens_q with
    | false, _ => -1
    | true, none => -1
    | true, some cu => cu bidb
  let sum_s_k : Int :=
    match Varlen, params.cu_seqlens_k, params.is_seqlens_k_cumulative with
    | false, _, _ => -1
    | true, none, _ => -1
    | true, some _, false => -1
    | true, some cu, true => cu bidb
  let actual_seqlen_q : Int :=
    match Varlen, params.cu_seqlens_q with
    | false, _ => params.seqlen_q
    | true, none => params.seqlen_q
    | true, some cu => cu (bidb + 1) - sum_s_q
  let seqlen_k_cache : Int :=
    match Varlen, params.cu_seqlens_k with
    | false, _ => params.seqlen_k
    | true, none => params.seqlen_k
    | true, some cu =>
        if params.is_seqlens_k_cumulative then cu (bidb + 1) - sum_s_k else cu bidb
  let actual_seqlen_k : Int :=
    seqlen_k_cache + (match params.knew_ptr with | none => 0 | some _ => params.seqlen_knew)
  { sum_s_q := sum_s_q
    sum_s_k := sum_s_k
    actual_seqlen_q := actual_seqlen_q
    seqlen_k_cache := seqlen_k_cache
    actual_seqlen_k := actual_seqlen_k
    pg_attn_block_tables_ptr := params.pg_attn_block_tables_ptr
    pg_attn_block_batch_stride := params.pg_attn_block_tables_batch_stride
    pg_attn_cache_block_stride := params.pg_attn_cache_block_stride
    actual_batch_size := none }

/-- The `uint32_t(...)` conversion applied to `sum_s_q` / `sum_s_k` in
`q_offset` / `k_offset`: reduction modulo 2^32 (`Int.emod`, whose result is
nonnegative for a positive modulus). -/
def uint32cast (x : Int) : Int := x % (2 ^ 32)

/-- `BlockInfo::q_offset`. -/
def BlockInfo.q_offset (bi : BlockInfo) (batch_stride row_stride : Int) (bidb : Int) : Int :=
  if bi.sum_s_q = -1 then bidb * batch_stride else uint32cast bi.sum_s_q * row_stride

/-- `BlockInfo::k_offset`. -/
def BlockInfo.k_offset (bi : BlockInfo) (batch_stride row_stride : Int) (bidb : Int) : Int :=
  if bi.sum_s_k = -1 then bidb * batch_stride else uint32cast bi.sum_s_k * row_stride

/-- `BlockInfo::k_offset_pg`. -/
def BlockInfo.k_offset_pg (bi : BlockInfo) (batch_stride row_stride : Int)
    (bidb block_id k_block_n : Int) : Int :=
  match bi.pg_attn_block_tables_ptr with
  | none => bi.k_offset batch_stride row_stride bidb + block_id * k_block_n * row_stride
  | some table =>
      table (bidb * bi.pg_attn_block_batch_stride + block_id) * bi.pg_attn_cache_block_stride

/-- `BlockInfo::k_advance_offset_pg`. -/
def BlockInfo.k_advance_offset_pg (bi : BlockInfo) (bidb current_block_id : Int)
    (row_stride k_block_n : Int) : Int :=
  match bi.pg_attn_block_tables_ptr with
  | none => -(k_block_n * row_stride)
  | some table =>
      table (bidb * bi.pg_attn_block_batch_stride + current_block_id - 1) *
          bi.pg_attn_cache_block_stride -
        table (bidb * bi.pg_attn_block_batch_stride + current_block_id) *
          bi.pg_attn_cache_block_stride

/-- An `int` array with the given contents, as the memory a pointer refers to
(indices outside the list read as 0; the source never reads such an index in
the scenarios below). -/
def listArray (l : List Int) : Int → Int := fun i => l.getD i.toNat 0

/-- A baseline configuration for the concrete scenarios of the spec. -/
def pBase : Params :=
  { cu_seqlens_q := none
    cu_seqlens_k := none
    is_seqlens_k_cumulative := true
    seqlen_q := 0
    seqlen_k := 0
    knew_ptr := none
    seqlen_knew := 0
    pg_attn_block_tables_ptr := none
    pg_attn_block_tables_batch_stride := 0
    pg_attn_cache_block_stride := 0
    actual_batch_size := none }

/-- Scenario configuration: `cu_seqlens_k = [0,8,8]` holding per-batch lengths
(`is_seqlens_k_cumulative = false`). -/
def pLenK : Params :=
  { pBase with cu_seqlens_k := some (listArray [0, 8, 8]), is_seqlens_k_cumulative := false }

/-- Scenario configuration: `cu_seqlens_q = [0,5,12]`. -/
def pCuQ : Params :=
  { pBase with cu_seqlens_q := some (listArray [0, 5, 12]) }

/-- Scenario configuration: flattened page table `[[2,0,1],[1,2,0]]` with batch
stride 3 and cache block stride 64. -/
def pPg : Params :=
  { pBase with
      pg_attn_block_tables_ptr := some (listArray [2, 0, 1, 1, 2, 0])
      pg_attn_block_tables_batch_stride := 3
      pg_attn_cache_block_stride := 64 }

/-- The identity array: the memory whose value at index `i` is `i`. With a page
table batch stride of 0, it is an identity page-table mapping: entry `(b, p)`
holds physical page `p` for every batch `b`. -/
def idArray : Int → Int := fun i => i

/-- Configuration with an identity page table (batch stride 0) and cache block
stride 6 = 2 * 3 (page length 2 rows, row stride 3). -/
def pIdPg : Params :=
  { pBase with
      pg_attn_block_tables_ptr := some idArray
      pg_attn_block_tables_batch_stride := 0
      pg_attn_cache_block_stride := 6 }

/-- The sum of `k_advance_offset_pg` deltas over a descending walk of `n` steps
whose first step is taken at current page index `s` (so the walk visits current
indices `s, s-1, ..., s-n+1` and ends at page `s-n`). -/
def advanceSum (bi : BlockInfo) (b rs kbn s : Int) : Nat → Int
  | 0 => 0
  | n + 1 => bi.k_advance_offset_pg b s rs kbn + advanceSum bi b rs kbn (s - 1) n

/-- Claim C1: resolution of `seqlen_k_cache` (the cached key length). With the
array absent it is `params.seqlen_k`; with the array present and the cumulative
flag set it is `cu[bidb+1] - cu[bidb]` (and `sum_s_k`, the key base offset, is
`cu[bidb]`); with the flag clear it is the raw value `cu[bidb]`. In the spec's
scenario `cu_seqlens_k = [0,8,8]` with the flag clear, batch index 1 resolves
to 8, not 0. -/
theorem seqlen_k_cache_resolution (p : Params) (b : Int) :
    ((mkBlockInfo true p b).seqlen_k_cache =
      (match p.cu_seqlens_k with
       | none => p.seqlen_k
       | some cu => if p.is_seqlens_k_cumulative then cu (b + 1) - cu b else cu b))
    ∧ ((mkBlockInfo true p b).sum_s_k =
      (match p.cu_seqlens_k with
       | none => -1
       | some cu => if p.is_seqlens_k_cumulative then cu b else -1))
    ∧ (mkBlockInfo true pLenK 1).seqlen_k_cache = 8 := by
  refine ⟨?_, ?_, ?_⟩
  · cases h : p.cu_seqlens_k with
    | none => simp [mkBlockInfo, h]
    | some cu => cases hc : p.is_seqlens_k_cumulative <;> simp [mkBlockInfo, h, hc]
  · cases h : p.cu_seqlens_k with
    | none => simp [mkBlockInfo, h]
    | some cu => cases hc : p.is_seqlens_k_cumulative <;> simp [mkBlockInfo, h, hc]
  · rfl

/-- Claim C2: `k_offset_pg` resolution. With the page table absent it is the
contiguous offset `k_offset(...) + block_id * k_block_n * row_stride`; with the
table present it is the pure lookup
`table[bidb * batch_table_stride + block_id] * cache_block_stride`, and the
result is then independent of the batch stride, the row stride and the key base
offset `sum_s_k`. -/
theorem k_offset_pg_resolution (bi : BlockInfo) (bs rs b blk kbn : Int) :
    (bi.k_offset_pg bs rs b blk kbn =
      (match bi.pg_attn_block_tables_ptr with
       | none => bi.k_offset bs rs b + blk * kbn * rs
       | some table =>
           table (b * bi.pg_attn_block_batch_stride + blk) * bi.pg_attn_cache_block_stride))
    ∧ (∀ bs' rs' s', bi.pg_attn_block_tables_ptr.isSome = true →
        ({ bi with sum_s_k := s' } : BlockInfo).k_offset_pg bs' rs' b blk kbn =
          bi.k_offset_pg bs rs b blk kbn) := by
  constructor
  · cases h : bi.pg_attn_block_tables_ptr <;> simp [BlockInfo.k_offset_pg, h]
  · intro bs' rs' s' hs
    cases h : bi.pg_attn_block_tables_ptr with
    | none => rw [h] at hs; simp at hs
    | some table => simp [BlockInfo.k_offset_pg, h]

/-- Witness for C2 at a concrete paged configuration. -/
theorem k_offset_pg_resolution_witness :
    ({ mkBlockInfo true pPg 0 with sum_s_k := 7 } : BlockInfo).k_offset_pg 11 13 1 2 5 =
      (mkBlockInfo true pPg 0).k_offset_pg 3 4 1 2 5 :=
  (k_offset_pg_resolution (mkBlockInfo true pPg 0) 3 4 1 2 5).2 11 13 7 rfl

/-- Claim C3: `k_advance_offset_pg` resolution. With the page table absent it
is the fixed backward stride `-(k_block_n * row_stride)`; with the table
present it is `(table[.., id-1] - table[.., id]) * cache_block_stride`. In the
spec's scenario, flattened table `[[2,0,1],[1,2,0]]` with batch stride 3 and
cache block stride 64 gives offset 0 at batch 1, page 2 and advance delta 128
at batch 1, current page 2. -/
theorem k_advance_offset_pg_resolution (bi : BlockInfo) (b cur rs kbn : Int) :
    (bi.k_advance_offset_pg b cur rs kbn =
      (match bi.pg_attn_block_tables_ptr with
       | none => -(kbn * rs)
       | some table =>
           (table (b * bi.pg_attn_block_batch_stride + cur - 1) -
             table (b * bi.pg_attn_block_batch_stride + cur)) * bi.pg_attn_cache_block_stride))
    ∧ (mkBlockInfo true pPg 1).k_offset_pg 100 10 1 2 16 = 0
    ∧ (mkBlockInfo true pPg 1).k_advance_offset_pg 1 2 10 16 = 128 := by
  refine ⟨?_, rfl, rfl⟩
  cases h : bi.pg_attn_block_tables_ptr with
  | none => simp [BlockInfo.k_advance_offset_pg, h]
  | some table => simp [BlockInfo.k_advance_offset_pg, h]; ring

/-- Claim C4: resolution of `actual_seqlen_q`. With the array absent it is
`params.seqlen_q`; with the array present it is `cu[bidb+1] - cu[bidb]` (and
`sum_s_q` is `cu[bidb]`). In the spec's scenario `cu_seqlens_q = [0,5,12]`,
batch 0 resolves to 5 and batch 1 to 7. -/
theorem actual_seqlen_q_resolution (p : Params) (b : Int) :
    ((mkBlockInfo true p b).actual_seqlen_q =
      (match p.cu_seqlens_q with
       | none => p.seqlen_q
       | some cu => cu (b + 1) - cu b))
    ∧ ((mkBlockInfo true p b).sum_s_q =
      (match p.cu_seqlens_q with
       | none => -1
       | some cu => cu b))
    ∧ (mkBlockInfo true pCuQ 0).actual_seqlen_q = 5
    ∧ (mkBlockInfo true pCuQ 1).actual_seqlen_q = 7 := by
  refine ⟨?_, ?_, rfl, rfl⟩
  · cases h : p.cu_seqlens_q with
    | none => simp [mkBlockInfo, h]
    | some cu => simp [mkBlockInfo, h]
  · cases h : p.cu_seqlens_q with
    | none => simp [mkBlockInfo, h]
    | some cu => simp [mkBlockInfo, h]

/-- Claim C5: `q_offset` returns `bidb * batch_stride` when `sum_s_q` is the
sentinel -1, and `sum_s_q * row_stride` otherwise (for any in-range base
offset, on which the `uint32_t` conversion is the identity); `k_offset` obeys
the same rule with `sum_s_k`. Both are total functions with no error path. -/
theorem q_k_offset_base_rule (bi : BlockInfo) (bs rs b : Int) :
    (bi.sum_s_q = -1 → bi.q_offset bs rs b = b * bs)
    ∧ (bi.sum_s_q ≠ -1 → 0 ≤ bi.sum_s_q → bi.sum_s_q < 2 ^ 32 →
        bi.q_offset bs rs b = bi.sum_s_q * rs)
    ∧ (bi.sum_s_k = -1 → bi.k_offset bs rs b = b * bs)
    ∧ (bi.sum_s_k ≠ -1 → 0 ≤ bi.sum_s_k → bi.sum_s_k < 2 ^ 32 →
        bi.k_offset bs rs b = bi.sum_s_k * rs) := by
  refine ⟨fun h => by simp [BlockInfo.q_offset, h],
          fun h h0 hlt => ?_,
          fun h => by simp [BlockInfo.k_offset, h],
          fun h h0 hlt => ?_⟩
  · simp only [BlockInfo.q_offset, if_neg h, uint32cast]
    rw [Int.emod_eq_of_lt h0 hlt]
  · simp only [BlockInfo.k_offset, if_neg h, uint32cast]
    rw [Int.emod_eq_of_lt h0 hlt]

/-- Witness for C5 at a concrete configuration: query in packed mode with base
offset 5, key in padded mode. -/
theorem q_k_offset_base_rule_witness :
    (mkBlockInfo true pCuQ 1).q_offset 100 10 1 = 50
    ∧ (mkBlockInfo true pCuQ 1).k_offset 100 10 1 = 100 := by
  have h := q_k_offset_base_rule (mkBlockInfo true pCuQ 1) 100 10 1
  exact ⟨(h.2.1 (by decide) (by decide) (by decide)).trans (by decide),
         (h.2.2.1 (by decide)).trans (by decide)⟩

/-- Claim C6: `actual_seqlen_k` is `seqlen_k_cache` plus the new key length,
the latter counting as 0 when `knew_ptr` is null, for every configuration
(both template instantiations, all addressing modes). -/
theorem actual_seqlen_k_total (Varlen : Bool) (p : Params) (b : Int) :
    (mkBlockInfo Varlen p b).actual_seqlen_k =
      (mkBlockInfo Varlen p b).seqlen_k_cache +
        (match p.knew_ptr with | none => 0 | some _ => p.seqlen_knew) := by
  cases h : p.knew_ptr <;> simp [mkBlockInfo, h]

/-- Claim C7 counterexample: an identity page table (entry `(b,p)` holds `p`
for every batch and page, via batch stride 0) with
`cache_block_stride = page_rows * row_stride = 2 * 3`, yet at batch index 1 the
paged offset (0) differs from the non-paged offset (10): the non-paged path
adds the per-batch base `k_offset`, which the paged lookup does not. -/
theorem identity_table_disagreement :
    (∀ b p : Int,
        idArray (b * (mkBlockInfo true pIdPg 1).pg_attn_block_batch_stride + p) = p)
    ∧ (mkBlockInfo true pIdPg 1).pg_attn_cache_block_stride = 2 * 3
    ∧ (mkBlockInfo true pIdPg 1).k_offset_pg 10 3 1 0 2 ≠
        (mkBlockInfo true { pIdPg with pg_attn_block_tables_ptr := none } 1).k_offset_pg
          10 3 1 0 2 := by
  refine ⟨fun b p => ?_, by decide, by decide⟩
  simp [idArray, mkBlockInfo, pIdPg, pBase]

/-- Claim C7 as amended: when the page table is the identity mapping and
`cache_block_stride = k_block_n * row_stride`, the paged offset equals the
non-paged (table-absent) offset minus the per-batch key row offset
`k_offset(batch_stride, row_stride, bidb)`; the two agree exactly when that
base offset is zero, not at every batch index. -/
theorem identity_table_offset_shift (bi : BlockInfo) (t : Int → Int)
    (bs rs b blk kbn : Int)
    (ht : bi.pg_attn_block_tables_ptr = some t)
    (hid : ∀ b' p : Int, t (b' * bi.pg_attn_block_batch_stride + p) = p)
    (hcps : bi.pg_attn_cache_block_stride = kbn * rs) :
    bi.k_offset_pg bs rs b blk kbn =
      ({ bi with pg_attn_block_tables_ptr := none } : BlockInfo).k_offset_pg bs rs b blk kbn
        - bi.k_offset bs rs b := by
  have h1 : bi.k_offset_pg bs rs b blk kbn = blk * (kbn * rs) := by
    simp [BlockInfo.k_offset_pg, ht, hid b blk, hcps]
  have h2 : ({ bi with pg_attn_block_tables_ptr := none } : BlockInfo).k_offset_pg
      bs rs b blk kbn = bi.k_offset bs rs b + blk * kbn * rs := rfl
  rw [h1, h2]; ring

/-- Witness for the amended C7 at the identity-table configuration. -/
theorem identity_table_offset_shift_witness :
    (mkBlockInfo true pIdPg 1).k_offset_pg 10 3 1 0 2 =
      ({ mkBlockInfo true pIdPg 1 with pg_attn_block_tables_ptr := none } :
          BlockInfo).k_offset_pg 10 3 1 0 2
        - (mkBlockInfo true pIdPg 1).k_offset 10 3 1 :=
  identity_table_offset_shift (mkBlockInfo true pIdPg 1) idArray 10 3 1 0 2 rfl
    (fun b' p => by simp [idArray, mkBlockInfo, pIdPg, pBase]) (by decide)

/-- One step of a descending page walk: the offset at current page `j` plus the
advance delta taken at `j` is the offset at page `j - 1`, in both the paged and
the contiguous scheme. -/
theorem k_offset_pg_step (bi : BlockInfo) (bs rs b j kbn : Int) :
    bi.k_offset_pg bs rs b j kbn + bi.k_advance_offset_pg b j rs kbn =
      bi.k_offset_pg bs rs b (j - 1) kbn := by
  cases h : bi.pg_attn_block_tables_ptr with
  | none =>
      simp only [BlockInfo.k_offset_pg, BlockInfo.k_advance_offset_pg, h]
      ring
  | some table =>
      simp only [BlockInfo.k_offset_pg, BlockInfo.k_advance_offset_pg, h]
      have harg : b * bi.pg_attn_block_batch_stride + j - 1 =
          b * bi.pg_attn_block_batch_stride + (j - 1) := by ring
      rw [harg]; ring

/-- Claim C8: over any descending walk of `n` pages starting at page index `s`,
the starting offset given by `k_offset_pg` plus the accumulated
`k_advance_offset_pg` deltas equals `k_offset_pg` evaluated directly at the
terminal page `s - n`, for every configuration (paged or contiguous). -/
theorem advance_walk_reconstructs_offset (bi : BlockInfo) (bs rs b kbn s : Int) (n : Nat) :
    bi.k_offset_pg bs rs b s kbn + advanceSum bi b rs kbn s n =
      bi.k_offset_pg bs rs b (s - (n : Int)) kbn := by
  induction n generalizing s with
  | zero => simp [advanceSum]
  | succ n ih =>
      have hstep := k_offset_pg_step bi bs rs b s kbn
      have ih' := ih (s - 1)
      have hcast : s - ((n + 1 : Nat) : Int) = s - 1 - (n : Int) := by push_cast; ring
      simp only [advanceSum]
      rw [hcast]
      linarith [hstep, ih']

/-- Claim C9: which interpretation (padded or packed) applies to each sequence
kind is determined solely by the presence of the respective cumulative-offset
array. When the array is present the padded length field does not influence the
resolved fields; when it is absent the resolved fields equal the padded length,
the sentinel -1 is used, and (for keys) the cumulative flag is irrelevant. -/
theorem mode_exclusivity (p : Params) (b x : Int) (c : Bool) :
    (∀ cu, p.cu_seqlens_q = some cu →
      ((mkBlockInfo true { p with seqlen_q := x } b).actual_seqlen_q =
          (mkBlockInfo true p b).actual_seqlen_q
        ∧ (mkBlockInfo true { p with seqlen_q := x } b).sum_s_q =
            (mkBlockInfo true p b).sum_s_q))
    ∧ (p.cu_seqlens_q = none →
        ((mkBlockInfo true p b).actual_seqlen_q = p.seqlen_q
          ∧ (mkBlockInfo true p b).sum_s_q = -1))
    ∧ (∀ cu, p.cu_seqlens_k = some cu →
        ((mkBlockInfo true { p with seqlen_k := x } b).seqlen_k_cache =
            (mkBlockInfo true p b).seqlen_k_cache
          ∧ (mkBlockInfo true { p with seqlen_k := x } b).sum_s_k =
              (mkBlockInfo true p b).sum_s_k))
    ∧ (p.cu_seqlens_k = none →
        ((mkBlockInfo true p b).seqlen_k_cache = p.seqlen_k
          ∧ (mkBlockInfo true { p with is_seqlens_k_cumulative := c } b).seqlen_k_cache =
              (mkBlockInfo true p b).seqlen_k_cache
          ∧ (mkBlockInfo true p b).sum_s_k = -1)) := by
  refine ⟨fun cu h => ?_, fun h => ?_, fun cu h => ?_, fun h => ?_⟩
  · exact ⟨by simp [mkBlockInfo, h], by simp [mkBlockInfo, h]⟩
  · exact ⟨by simp [mkBlockInfo, h], by simp [mkBlockInfo, h]⟩
  · cases hc : p.is_seqlens_k_cumulative <;>
      exact ⟨by simp [mkBlockInfo, h, hc], by simp [mkBlockInfo, h, hc]⟩
  · exact ⟨by simp [mkBlockInfo, h], by simp [mkBlockInfo, h], by simp [mkBlockInfo, h]⟩

/-- Witness for C9 at the `[0,5,12]` scenario: changing the padded query length
does not change the resolved query length when the array is present. -/
theorem mode_exclusivity_witness :
    (mkBlockInfo true { pCuQ with seqlen_q := 99 } 1).actual_seqlen_q =
      (mkBlockInfo true pCuQ 1).actual_seqlen_q :=
  ((mode_exclusivity pCuQ 1 99 true).1 (listArray [0, 5, 12]) rfl).1

/-- Claim C10: the `actual_batch_size` pointer is dead at this layer. The
constructor's result does not depend on it, and none of the four accessors read
it: updating it in a `BlockInfo` changes no accessor result. -/
theorem actual_batch_size_never_read (Varlen : Bool) (p : Params) (bi : BlockInfo)
    (a : Option (Int → Int)) (b bs rs bidb blk kbn cur : Int) :
    mkBlockInfo Varlen { p with actual_batch_size := a } b = mkBlockInfo Varlen p b
    ∧ ({ bi with actual_batch_size := a } : BlockInfo).q_offset bs rs bidb =
        bi.q_offset bs rs bidb
    ∧ ({ bi with actual_batch_size := a } : BlockInfo).k_offset bs rs bidb =
        bi.k_offset bs rs bidb
    ∧ ({ bi with actual_batch_size := a } : BlockInfo).k_offset_pg bs rs bidb blk kbn =
        bi.k_offset_pg bs rs bidb blk kbn
    ∧ ({ bi with actual_batch_size := a } : BlockInfo).k_advance_offset_pg bidb cur rs kbn =
        bi.k_advance_offset_pg bidb cur rs kbn :=
  ⟨rfl, rfl, rfl, rfl, rfl⟩

end flash
